import Mathlib

/-!
Shallow embedding of the GUID-fixer module (`Source/GuidFixer/Private/GuidFixer.cpp`).

Assets are identified by a handle (`AssetId`); their mutable lighting GUID is a
`Nat` where `0` models the all-zero invalid `FGuid`.  The per-scan `TMap<FGuid, T*>`
is modelled as an association list with replace-on-add semantics.  Fresh GUID
generation (`SetLightingGuid()` with no argument) draws successive values from a
generator `gen : Nat -> Guid` indexed by a counter carried in the scan state.
-/

namespace GuidFixer

/-- Handle of a live asset enumerated by `TObjectIterator`. -/
abbrev AssetId := Nat

/-- A lighting GUID; `0` stands for the invalid (all-zero) `FGuid`. -/
abbrev Guid := Nat

/-- `FGuid::IsValid`: a GUID is valid iff it is not the zero GUID. -/
def isValid (g : Guid) : Bool := g != 0

/-- `FString::StartsWith`, modelled on the character sequence of the string. -/
def strStartsWith (s pre : String) : Bool := pre.data.isPrefixOf s.data

/-- `FGuidFixerModule::ShouldModify` (GuidFixer.cpp lines 76-84): an object may be
modified iff its path name marks it as project content. -/
def shouldModify (pathName : String) : Bool :=
  let bIsEngineContent := strStartsWith pathName "/Engine/"
  let bIsProjectContent := strStartsWith pathName "/Game/"
  let bIsPluginContent := !bIsEngineContent && !bIsProjectContent
  bIsProjectContent

/-- Lookup in the `TMap` model: first entry with the given key. -/
def mapFind : List (Guid × AssetId) → Guid → Option AssetId
  | [], _ => none
  | p :: rest, k => if p.1 = k then some p.2 else mapFind rest k

/-- `TMap::Remove`: drop every entry with the given key. -/
def mapRemove : List (Guid × AssetId) → Guid → List (Guid × AssetId)
  | [], _ => []
  | p :: rest, k => if p.1 = k then mapRemove rest k else p :: mapRemove rest k

/-- `TMap::Add`: insert, replacing any existing entry with the same key. -/
def mapAdd (m : List (Guid × AssetId)) (k : Guid) (v : AssetId) : List (Guid × AssetId) :=
  (k, v) :: mapRemove m k

/-- Pointwise update of the GUID assignment. -/
def setGuid (f : AssetId → Guid) (i : AssetId) (g : Guid) : AssetId → Guid :=
  fun j => if j = i then g else f j

/-- State threaded through one fixer invocation: current GUID of every asset,
the per-scan registry, the two outcome flags, and the fresh-GUID counter. -/
structure ScanState where
  guid : AssetId → Guid
  reg : List (Guid × AssetId)
  madeChanges : Bool
  hasWarnings : Bool
  fresh : Nat

/-- State at the start of an operation: host-provided GUIDs, empty registry,
both flags clear, no fresh GUIDs drawn yet. -/
def initState (g0 : AssetId → Guid) : ScanState :=
  { guid := g0, reg := [], madeChanges := false, hasWarnings := false, fresh := 0 }

@[simp] theorem setGuid_same (f : AssetId → Guid) (i : AssetId) (g : Guid) :
    setGuid f i g i = g := by
  simp [setGuid]

theorem setGuid_ne (f : AssetId → Guid) (i j : AssetId) (g : Guid) (h : j ≠ i) :
    setGuid f i g j = f j := by
  simp [setGuid, h]

theorem mapFind_eq_some_mem {m : List (Guid × AssetId)} {k : Guid} {v : AssetId}
    (h : mapFind m k = some v) : (k, v) ∈ m := by
  induction m with
  | nil => simp [mapFind] at h
  | cons p rest ih =>
    rw [mapFind] at h
    by_cases hp : p.1 = k
    · rw [if_pos hp] at h
      have hv : p.2 = v := by injection h
      have hpv : (k, v) = p := by
        cases p
        simp_all
      exact List.mem_cons.mpr (Or.inl hpv)
    · rw [if_neg hp] at h
      exact List.mem_cons_of_mem _ (ih h)

theorem mem_mapRemove {m : List (Guid × AssetId)} {k : Guid} {p : Guid × AssetId}
    (h : p ∈ mapRemove m k) : p ∈ m ∧ p.1 ≠ k := by
  induction m with
  | nil => simp [mapRemove] at h
  | cons q rest ih =>
    rw [mapRemove] at h
    by_cases hq : q.1 = k
    · rw [if_pos hq] at h
      exact ⟨List.mem_cons_of_mem _ (ih h).1, (ih h).2⟩
    · rw [if_neg hq] at h
      rcases List.mem_cons.mp h with h | h
      · exact ⟨List.mem_cons.mpr (Or.inl h), h ▸ hq⟩
      · exact ⟨List.mem_cons_of_mem _ (ih h).1, (ih h).2⟩

theorem mem_mapAdd {m : List (Guid × AssetId)} {k : Guid} {v : AssetId}
    {p : Guid × AssetId} (h : p ∈ mapAdd m k v) :
    p = (k, v) ∨ (p ∈ m ∧ p.1 ≠ k) := by
  rcases List.mem_cons.mp h with h | h
  · exact Or.inl h
  · exact Or.inr (mem_mapRemove h)

@[simp] theorem mapFind_mapAdd_self (m : List (Guid × AssetId)) (k : Guid) (v : AssetId) :
    mapFind (mapAdd m k v) k = some v := by
  simp [mapAdd, mapFind]

theorem mapFind_mapRemove_ne {m : List (Guid × AssetId)} {k k' : Guid} (h : k' ≠ k) :
    mapFind (mapRemove m k) k' = mapFind m k' := by
  induction m with
  | nil => rfl
  | cons p rest ih =>
    rw [mapRemove]
    by_cases hp : p.1 = k
    · rw [if_pos hp, ih, mapFind, if_neg (by rw [hp]; exact fun hc => h hc.symm)]
    · rw [if_neg hp, mapFind, mapFind]
      by_cases hk : p.1 = k'
      · rw [if_pos hk, if_pos hk]
      · rw [if_neg hk, if_neg hk, ih]

theorem mapFind_mapAdd_ne {m : List (Guid × AssetId)} {k k' : Guid} {v : AssetId}
    (h : k' ≠ k) : mapFind (mapAdd m k v) k' = mapFind m k' := by
  rw [mapAdd, mapFind, if_neg (fun hc => h hc.symm)]
  exact mapFind_mapRemove_ne h

/-- Collision branch (a) (lines 123-134): give the incumbent `r` a fresh GUID,
mark it modified, remove the stale registry key and re-register `r` under its
new GUID.  Note: `bMadeChanges` is NOT set on this path (only
`bAnyGuidsModified` is, which feeds the warning decision). -/
def rekeyIncumbent (gen : Nat → Guid) (s : ScanState) (oldKey : Guid) (r : AssetId) :
    ScanState :=
  { s with
    guid := setGuid s.guid r (gen s.fresh)
    reg := mapAdd (mapRemove s.reg oldKey) (gen s.fresh) r
    fresh := s.fresh + 1 }

/-- Collision branch (b) (lines 136-144): give the current asset a fresh GUID,
mark it modified, set `bMadeChanges`, and register it under the new GUID (the
old key is not removed on this path). -/
def assignCurrent (gen : Nat → Guid) (s : ScanState) (a : AssetId) : ScanState :=
  { s with
    guid := setGuid s.guid a (gen s.fresh)
    reg := mapAdd s.reg (gen s.fresh) a
    madeChanges := true
    fresh := s.fresh + 1 }

/-- The shared collision-handling core (lines 113-155): look the current GUID up
in the registry; on a miss register the asset, on a hit run the defensive
incumbent re-key (a), the policy-gated reassignment of the current asset (b),
and set `bHasWarnings` iff neither fired. -/
def collideStep (path : AssetId → String) (gen : Nat → Guid) (s : ScanState)
    (a : AssetId) : ScanState :=
  match mapFind s.reg (s.guid a) with
  | none => { s with reg := mapAdd s.reg (s.guid a) a }
  | some r =>
    let doR := decide (s.guid r = s.guid a) && shouldModify (path r)
    let s1 := if doR then rekeyIncumbent gen s (s.guid a) r else s
    let s2 := if shouldModify (path a) then assignCurrent gen s1 a else s1
    if doR || shouldModify (path a) then s2 else { s2 with hasWarnings := true }

/-- One `FixMaterialGuids` loop iteration (lines 94-156): a material with an
invalid GUID is repaired inline when policy allows (then continues into the
collision core with its new GUID) and otherwise produces a warning and is
skipped; a material with a valid GUID goes straight to the collision core. -/
def fixMaterialStep (path : AssetId → String) (gen : Nat → Guid) (s : ScanState)
    (a : AssetId) : ScanState :=
  if isValid (s.guid a) = false then
    if shouldModify (path a) then
      collideStep path gen
        { s with
          guid := setGuid s.guid a (gen s.fresh)
          madeChanges := true
          fresh := s.fresh + 1 } a
    else { s with hasWarnings := true }
  else collideStep path gen s a

/-- One `FixTextureGuids` loop iteration (lines 174-226): a texture with an
invalid GUID only produces a warning and is skipped (no repair, no policy
check); a texture with a valid GUID goes to the collision core. -/
def fixTextureStep (path : AssetId → String) (gen : Nat → Guid) (s : ScanState)
    (a : AssetId) : ScanState :=
  if isValid (s.guid a) = false then { s with hasWarnings := true }
  else collideStep path gen s a

/-- One `FixEmptyTextureGuids` loop iteration (lines 242-261): skip textures
with a valid GUID; otherwise assign a fresh GUID when policy allows, and warn
when it does not.  The registry is never consulted. -/
def fixEmptyStep (path : AssetId → String) (gen : Nat → Guid) (s : ScanState)
    (a : AssetId) : ScanState :=
  if isValid (s.guid a) = true then s
  else if shouldModify (path a) then
    { s with
      guid := setGuid s.guid a (gen s.fresh)
      madeChanges := true
      fresh := s.fresh + 1 }
  else { s with hasWarnings := true }

/-- The `FixMaterialGuids` scan (lines 88-156): fold the per-material step over
the host enumeration, starting from an empty registry and clear flags. -/
def runFixMaterialGuids (path : AssetId → String) (gen : Nat → Guid)
    (g0 : AssetId → Guid) (order : List AssetId) : ScanState :=
  order.foldl (fixMaterialStep path gen) (initState g0)

/-- The `FixTextureGuids` scan (lines 168-226). -/
def runFixTextureGuids (path : AssetId → String) (gen : Nat → Guid)
    (g0 : AssetId → Guid) (order : List AssetId) : ScanState :=
  order.foldl (fixTextureStep path gen) (initState g0)

/-- The `FixEmptyTextureGuids` scan (lines 238-261). -/
def runFixEmptyTextureGuids (path : AssetId → String) (gen : Nat → Guid)
    (g0 : AssetId → Guid) (order : List AssetId) : ScanState :=
  order.foldl (fixEmptyStep path gen) (initState g0)

/-- Dialog text of `FixMaterialGuids` (lines 158-165). -/
def materialDialogText (bMadeChanges bHasWarnings : Bool) : String :=
  if bMadeChanges && bHasWarnings then
    "At least one material GUID has been changed, but there are some unresolvable issues (Please refer to log). Use save all to save these changes."
  else if bMadeChanges then
    "At least one material GUID has been changed. Use save all to save these changes."
  else if bHasWarnings then
    "No material GUID has been changed, but there are some unresolvable issues (Please refer to log)."
  else "No duplicate material GUIDs found."

/-- Dialog text of `FixTextureGuids` (lines 228-235). -/
def textureDialogText (bMadeChanges bHasWarnings : Bool) : String :=
  if bMadeChanges && bHasWarnings then
    "At least one texture GUID has been changed, but there are some unresolvable issues (Please refer to log). Use save all to save these changes."
  else if bMadeChanges then
    "At least one texture GUID has been changed. Use save all to save these changes."
  else if bHasWarnings then
    "No texture GUID has been changed, but there are some unresolvable issues (Please refer to log)."
  else "No duplicate texture GUIDs found."

/-- Dialog text of `FixEmptyTextureGuids` (lines 263-270). -/
def emptyTextureDialogText (bMadeChanges bHasWarnings : Bool) : String :=
  if bMadeChanges && bHasWarnings then
    "At least one texture GUID has been changed, but there are some unresolvable issues (Please refer to log). Use save all to save these changes."
  else if bMadeChanges then
    "At least one texture GUID has been changed. Use save all to save these changes."
  else if bHasWarnings then
    "No texture GUID has been changed, but there are some unresolvable issues (Please refer to log)."
  else "No empty texture GUIDs found."

/-- Full `FixMaterialGuids` operation: final scan state plus the displayed
dialog string. -/
def fixMaterialGuids (path : AssetId → String) (gen : Nat → Guid)
    (g0 : AssetId → Guid) (order : List AssetId) : ScanState × String :=
  let s := runFixMaterialGuids path gen g0 order
  (s, materialDialogText s.madeChanges s.hasWarnings)

/-- Full `FixTextureGuids` operation. -/
def fixTextureGuids (path : AssetId → String) (gen : Nat → Guid)
    (g0 : AssetId → Guid) (order : List AssetId) : ScanState × String :=
  let s := runFixTextureGuids path gen g0 order
  (s, textureDialogText s.madeChanges s.hasWarnings)

/-- Full `FixEmptyTextureGuids` operation. -/
def fixEmptyTextureGuids (path : AssetId → String) (gen : Nat → Guid)
    (g0 : AssetId → Guid) (order : List AssetId) : ScanState × String :=
  let s := runFixEmptyTextureGuids path gen g0 order
  (s, emptyTextureDialogText s.madeChanges s.hasWarnings)

theorem guid_rekeyIncumbent_ne {gen : Nat → Guid} {s : ScanState} {k : Guid}
    {r x : AssetId} (h : x ≠ r) : (rekeyIncumbent gen s k r).guid x = s.guid x := by
  simp [rekeyIncumbent, setGuid, h]

theorem guid_assignCurrent_ne {gen : Nat → Guid} {s : ScanState} {a x : AssetId}
    (h : x ≠ a) : (assignCurrent gen s a).guid x = s.guid x := by
  simp [assignCurrent, setGuid, h]

theorem collideStep_none {path : AssetId → String} {gen : Nat → Guid} {s : ScanState}
    {a : AssetId} (h : mapFind s.reg (s.guid a) = none) :
    collideStep path gen s a = { s with reg := mapAdd s.reg (s.guid a) a } := by
  unfold collideStep
  rw [h]

theorem collideStep_hit_both {path : AssetId → String} {gen : Nat → Guid} {s : ScanState}
    {a r : AssetId} (h : mapFind s.reg (s.guid a) = some r) (hEq : s.guid r = s.guid a)
    (hmr : shouldModify (path r) = true) (hma : shouldModify (path a) = true) :
    collideStep path gen s a = assignCurrent gen (rekeyIncumbent gen s (s.guid a) r) a := by
  unfold collideStep
  rw [h]
  simp [hEq, hmr, hma]

theorem collideStep_hit_incumbent {path : AssetId → String} {gen : Nat → Guid}
    {s : ScanState} {a r : AssetId} (h : mapFind s.reg (s.guid a) = some r)
    (hEq : s.guid r = s.guid a) (hmr : shouldModify (path r) = true)
    (hma : shouldModify (path a) = false) :
    collideStep path gen s a = rekeyIncumbent gen s (s.guid a) r := by
  unfold collideStep
  rw [h]
  simp [hEq, hmr, hma]

theorem collideStep_hit_current {path : AssetId → String} {gen : Nat → Guid}
    {s : ScanState} {a r : AssetId} (h : mapFind s.reg (s.guid a) = some r)
    (hmr : shouldModify (path r) = false) (hma : shouldModify (path a) = true) :
    collideStep path gen s a = assignCurrent gen s a := by
  unfold collideStep
  rw [h]
  simp [hmr, hma]

theorem collideStep_hit_warn {path : AssetId → String} {gen : Nat → Guid}
    {s : ScanState} {a r : AssetId} (h : mapFind s.reg (s.guid a) = some r)
    (hmr : shouldModify (path r) = false) (hma : shouldModify (path a) = false) :
    collideStep path gen s a = { s with hasWarnings := true } := by
  unfold collideStep
  rw [h]
  simp [hmr, hma]

theorem collideStep_guid_not_mod {path : AssetId → String} {gen : Nat → Guid}
    {s : ScanState} {c x : AssetId} (hx : shouldModify (path x) = false) :
    (collideStep path gen s c).guid x = s.guid x := by
  unfold collideStep
  cases hfind : mapFind s.reg (s.guid c) with
  | none => rfl
  | some r =>
    simp only []
    by_cases hdr : (decide (s.guid r = s.guid c) && shouldModify (path r)) = true
    · have hmr : shouldModify (path r) = true := (Bool.and_eq_true .. ▸ hdr).2
      have hxr : x ≠ r := fun hc => by rw [hc, hmr] at hx; exact Bool.noConfusion hx
      by_cases hma : shouldModify (path c) = true
      · have hxc : x ≠ c := fun hc => by rw [hc, hma] at hx; exact Bool.noConfusion hx
        simp [hdr, hma, guid_assignCurrent_ne hxc, guid_rekeyIncumbent_ne hxr]
      · have hma' : shouldModify (path c) = false := by simpa using hma
        simp [hdr, hma', guid_rekeyIncumbent_ne hxr]
    · have hdr' : (decide (s.guid r = s.guid c) && shouldModify (path r)) = false := by
        simpa using hdr
      by_cases hma : shouldModify (path c) = true
      · have hxc : x ≠ c := fun hc => by rw [hc, hma] at hx; exact Bool.noConfusion hx
        simp [hdr', hma, guid_assignCurrent_ne hxc]
      · have hma' : shouldModify (path c) = false := by simpa using hma
        simp [hdr', hma']

theorem fixMaterialStep_guid_not_mod {path : AssetId → String} {gen : Nat → Guid}
    {s : ScanState} {c x : AssetId} (hx : shouldModify (path x) = false) :
    (fixMaterialStep path gen s c).guid x = s.guid x := by
  unfold fixMaterialStep
  by_cases hv : isValid (s.guid c) = false
  · rw [if_pos hv]
    by_cases hmc : shouldModify (path c) = true
    · have hxc : x ≠ c := fun hc => by rw [hc] at hx; simp_all
      rw [if_pos hmc, collideStep_guid_not_mod hx]
      simp [setGuid, hxc]
    · rw [if_neg hmc]
  · rw [if_neg hv]
    exact collideStep_guid_not_mod hx

theorem fixTextureStep_guid_not_mod {path : AssetId → String} {gen : Nat → Guid}
    {s : ScanState} {c x : AssetId} (hx : shouldModify (path x) = false) :
    (fixTextureStep path gen s c).guid x = s.guid x := by
  unfold fixTextureStep
  by_cases hv : isValid (s.guid c) = false
  · rw [if_pos hv]
  · rw [if_neg hv]
    exact collideStep_guid_not_mod hx

theorem fixEmptyStep_guid_not_mod {path : AssetId → String} {gen : Nat → Guid}
    {s : ScanState} {c x : AssetId} (hx : shouldModify (path x) = false) :
    (fixEmptyStep path gen s c).guid x = s.guid x := by
  unfold fixEmptyStep
  by_cases hv : isValid (s.guid c) = true
  · rw [if_pos hv]
  · rw [if_neg hv]
    by_cases hmc : shouldModify (path c) = true
    · have hxc : x ≠ c := fun hc => by rw [hc] at hx; simp_all
      rw [if_pos hmc]
      simp [setGuid, hxc]
    · rw [if_neg hmc]

theorem foldl_guid_eq {f : ScanState → AssetId → ScanState} {x : AssetId}
    (hf : ∀ s c, (f s c).guid x = s.guid x) :
    ∀ (l : List AssetId) (s : ScanState), (l.foldl f s).guid x = s.guid x := by
  intro l
  induction l with
  | nil => intro s; rfl
  | cons c rest ih => intro s; rw [List.foldl_cons, ih, hf]

/-- Concrete fixture: asset 0 is project content, asset 1 is engine content,
asset 2 is project content. -/
def pathA : AssetId → String :=
  fun i => if i = 0 then "/Game/A" else if i = 1 then "/Engine/B" else "/Game/C"

/-- Concrete fixture: every asset starts with the same valid GUID 5. -/
def gInit : AssetId → Guid := fun _ => 5

/-- Concrete fresh-GUID generator for first runs. -/
def genA : Nat → Guid := fun i => 100 + i

/-- Concrete fresh-GUID generator for second runs. -/
def genB : Nat → Guid := fun i => 200 + i

/-- Claim C1: an asset whose ownership classification fails `ShouldModify`
(its path does not start with "/Game/") never has its GUID mutated by any of
the three operations, whatever the other assets, the enumeration order, the
initial GUIDs (valid or not), or the collisions it participates in. -/
theorem material_texture_empty_never_touch_unmodifiable (path : AssetId → String)
    (gen : Nat → Guid) (g0 : AssetId → Guid) (order : List AssetId) (x : AssetId)
    (hx : shouldModify (path x) = false) :
    (runFixMaterialGuids path gen g0 order).guid x = g0 x ∧
    (runFixTextureGuids path gen g0 order).guid x = g0 x ∧
    (runFixEmptyTextureGuids path gen g0 order).guid x = g0 x := by
  exact ⟨foldl_guid_eq (fun s c => fixMaterialStep_guid_not_mod hx) order (initState g0),
    foldl_guid_eq (fun s c => fixTextureStep_guid_not_mod hx) order (initState g0),
    foldl_guid_eq (fun s c => fixEmptyStep_guid_not_mod hx) order (initState g0)⟩

/-- Witness for C1: engine asset 1 shares GUID 5 with project asset 0 and is in
an actual collision, yet keeps GUID 5 in all three operations. -/
theorem material_texture_empty_never_touch_unmodifiable_witness :
    shouldModify (pathA 1) = false ∧
    ((runFixMaterialGuids pathA genA gInit [0, 1]).guid 1 = gInit 1 ∧
     (runFixTextureGuids pathA genA gInit [0, 1]).guid 1 = gInit 1 ∧
     (runFixEmptyTextureGuids pathA genA gInit [0, 1]).guid 1 = gInit 1) :=
  ⟨by decide,
   material_texture_empty_never_touch_unmodifiable pathA genA gInit [0, 1] 1 (by decide)⟩

/-- Claim C6: in each of the three operations the displayed string is a
function of the two accumulated booleans alone, and that function maps the
four flag combinations to the four fixed report strings (wording differing
only by asset kind and operation). -/
theorem report_synthesis_table :
    (∀ (path : AssetId → String) (gen : Nat → Guid) (g0 : AssetId → Guid)
        (order : List AssetId),
      (fixMaterialGuids path gen g0 order).2 =
        materialDialogText (runFixMaterialGuids path gen g0 order).madeChanges
          (runFixMaterialGuids path gen g0 order).hasWarnings ∧
      (fixTextureGuids path gen g0 order).2 =
        textureDialogText (runFixTextureGuids path gen g0 order).madeChanges
          (runFixTextureGuids path gen g0 order).hasWarnings ∧
      (fixEmptyTextureGuids path gen g0 order).2 =
        emptyTextureDialogText (runFixEmptyTextureGuids path gen g0 order).madeChanges
          (runFixEmptyTextureGuids path gen g0 order).hasWarnings) ∧
    (materialDialogText false false = "No duplicate material GUIDs found." ∧
     materialDialogText true false =
       "At least one material GUID has been changed. Use save all to save these changes." ∧
     materialDialogText false true =
       "No material GUID has been changed, but there are some unresolvable issues (Please refer to log)." ∧
     materialDialogText true true =
       "At least one material GUID has been changed, but there are some unresolvable issues (Please refer to log). Use save all to save these changes.") ∧
    (textureDialogText false false = "No duplicate texture GUIDs found." ∧
     textureDialogText true false =
       "At least one texture GUID has been changed. Use save all to save these changes." ∧
     textureDialogText false true =
       "No texture GUID has been changed, but there are some unresolvable issues (Please refer to log)." ∧
     textureDialogText true true =
       "At least one texture GUID has been changed, but there are some unresolvable issues (Please refer to log). Use save all to save these changes.") ∧
    (emptyTextureDialogText false false = "No empty texture GUIDs found." ∧
     emptyTextureDialogText true false =
       "At least one texture GUID has been changed. Use save all to save these changes." ∧
     emptyTextureDialogText false true =
       "No texture GUID has been changed, but there are some unresolvable issues (Please refer to log)." ∧
     emptyTextureDialogText true true =
       "At least one texture GUID has been changed, but there are some unresolvable issues (Please refer to log). Use save all to save these changes.") := by
  refine ⟨fun path gen g0 order => ⟨rfl, rfl, rfl⟩, ?_, ?_, ?_⟩ <;>
    exact ⟨rfl, rfl, rfl, rfl⟩

/-- Claim C7: the texture collision pass turns every texture with an invalid
GUID into a warning-only skip — no mutation, no registration, and an outcome
independent of the path (so `ShouldModify` is never consulted) — while a
subsequent `FixEmptyTextureGuids` run on a project-content texture with an
invalid GUID assigns it a fresh valid GUID, sets the change flag, and raises
no warning. -/
theorem texture_pass_asymmetry (path : AssetId → String) (gen gen2 : Nat → Guid)
    (g0 : AssetId → Guid) (t : AssetId)
    (hinv : isValid (g0 t) = false) (hmod : shouldModify (path t) = true)
    (hgen : isValid (gen2 0) = true) :
    (∀ (s : ScanState) (a : AssetId), isValid (s.guid a) = false →
      fixTextureStep path gen s a = { s with hasWarnings := true }) ∧
    (runFixTextureGuids path gen g0 [t]).madeChanges = false ∧
    (runFixTextureGuids path gen g0 [t]).hasWarnings = true ∧
    (runFixTextureGuids path gen g0 [t]).guid t = g0 t ∧
    (runFixEmptyTextureGuids path gen2 (runFixTextureGuids path gen g0 [t]).guid [t]).guid t
      = gen2 0 ∧
    isValid ((runFixEmptyTextureGuids path gen2
      (runFixTextureGuids path gen g0 [t]).guid [t]).guid t) = true ∧
    (runFixEmptyTextureGuids path gen2
      (runFixTextureGuids path gen g0 [t]).guid [t]).madeChanges = true ∧
    (runFixEmptyTextureGuids path gen2
      (runFixTextureGuids path gen g0 [t]).guid [t]).hasWarnings = false := by
  have hstep : ∀ (s : ScanState) (a : AssetId), isValid (s.guid a) = false →
      fixTextureStep path gen s a = { s with hasWarnings := true } := by
    intro s a h
    unfold fixTextureStep
    rw [if_pos h]
  refine ⟨hstep, ?_, ?_, ?_, ?_, ?_, ?_, ?_⟩ <;>
    simp [runFixTextureGuids, runFixEmptyTextureGuids, fixTextureStep, fixEmptyStep,
      initState, hinv, hmod, setGuid, hgen]

/-- Witness for C7: project-content texture 0 with the invalid GUID. -/
theorem texture_pass_asymmetry_witness :
    (isValid ((fun _ : AssetId => (0 : Guid)) 0) = false ∧
     shouldModify ((fun _ : AssetId => "/Game/T") 0) = true ∧
     isValid (genB 0) = true) ∧
    (runFixTextureGuids (fun _ => "/Game/T") genA (fun _ => 0) [0]).madeChanges = false ∧
    (runFixTextureGuids (fun _ => "/Game/T") genA (fun _ => 0) [0]).hasWarnings = true ∧
    (runFixEmptyTextureGuids (fun _ => "/Game/T") genB
      (runFixTextureGuids (fun _ => "/Game/T") genA (fun _ => 0) [0]).guid [0]).madeChanges = true ∧
    (runFixEmptyTextureGuids (fun _ => "/Game/T") genB
      (runFixTextureGuids (fun _ => "/Game/T") genA (fun _ => 0) [0]).guid [0]).hasWarnings = false := by
  have h := texture_pass_asymmetry (fun _ => "/Game/T") genA genB (fun _ => 0) 0
    (by decide) (by decide) (by decide)
  exact ⟨⟨by decide, by decide, by decide⟩, h.2.1, h.2.2.1, h.2.2.2.2.2.2.1, h.2.2.2.2.2.2.2⟩

/-- Claim C8: `FixEmptyTextureGuids` never touches the registry, and on an
asset set whose GUIDs are all valid — even with duplicates among them — it
changes nothing: the final state is exactly the initial state (all GUIDs kept,
both flags false). -/
theorem fix_missing_no_collision_detection (path : AssetId → String) (gen : Nat → Guid)
    (g0 : AssetId → Guid) (order : List AssetId)
    (hvalid : ∀ a ∈ order, isValid (g0 a) = true) :
    (∀ (s : ScanState) (a : AssetId), (fixEmptyStep path gen s a).reg = s.reg) ∧
    runFixEmptyTextureGuids path gen g0 order = initState g0 := by
  constructor
  · intro s a
    unfold fixEmptyStep
    by_cases hv : isValid (s.guid a) = true
    · rw [if_pos hv]
    · rw [if_neg hv]
      by_cases hm : shouldModify (path a) = true
      · rw [if_pos hm]
      · rw [if_neg hm]
  · rw [runFixEmptyTextureGuids]
    have : ∀ (l : List AssetId) (s : ScanState), (∀ a ∈ l, isValid (s.guid a) = true) →
        l.foldl (fixEmptyStep path gen) s = s := by
      intro l
      induction l with
      | nil => intro s _; rfl
      | cons c rest ih =>
        intro s hl
        rw [List.foldl_cons]
        have hc : fixEmptyStep path gen s c = s := by
          unfold fixEmptyStep
          rw [if_pos (hl c (List.mem_cons_self c rest))]
        rw [hc]
        exact ih s (fun a ha => hl a (List.mem_cons_of_mem c ha))
    exact this order (initState g0) hvalid

/-- Witness for C8: two textures sharing the valid GUID 5 — no change, no
warning, no registry activity. -/
theorem fix_missing_no_collision_detection_witness :
    (∀ a ∈ [0, 1], isValid (gInit a) = true) ∧
    runFixEmptyTextureGuids pathA genA gInit [0, 1] = initState gInit := by
  refine ⟨by decide, ?_⟩
  exact (fix_missing_no_collision_detection pathA genA gInit [0, 1] (by decide)).2

/-- Claim C10: each operation is a total fold over the whole enumeration — the
scan over a concatenation is the scan of the first part continued over the
second, and an asset that only raises an unresolved warning merely sets the
warning flag, after which every later asset is still processed normally. -/
theorem scans_run_to_completion (path : AssetId → String) (gen : Nat → Guid)
    (g0 : AssetId → Guid) (c : AssetId) (xs ys : List AssetId)
    (hinvM : isValid ((xs.foldl (fixMaterialStep path gen) (initState g0)).guid c) = false)
    (hmodc : shouldModify (path c) = false) :
    (∀ (s : ScanState) (l l' : List AssetId),
      (l ++ l').foldl (fixMaterialStep path gen) s =
        l'.foldl (fixMaterialStep path gen) (l.foldl (fixMaterialStep path gen) s) ∧
      (l ++ l').foldl (fixTextureStep path gen) s =
        l'.foldl (fixTextureStep path gen) (l.foldl (fixTextureStep path gen) s) ∧
      (l ++ l').foldl (fixEmptyStep path gen) s =
        l'.foldl (fixEmptyStep path gen) (l.foldl (fixEmptyStep path gen) s)) ∧
    runFixMaterialGuids path gen g0 (xs ++ c :: ys) =
      ys.foldl (fixMaterialStep path gen)
        { xs.foldl (fixMaterialStep path gen) (initState g0) with hasWarnings := true } ∧
    runFixTextureGuids path gen g0 (xs ++ c :: ys) =
      ys.foldl (fixTextureStep path gen)
        { xs.foldl (fixTextureStep path gen) (initState g0) with hasWarnings := true } ∧
    runFixEmptyTextureGuids path gen g0 (xs ++ c :: ys) =
      ys.foldl (fixEmptyStep path gen)
        { xs.foldl (fixEmptyStep path gen) (initState g0) with hasWarnings := true } := by
  have happ : ∀ (s : ScanState) (l l' : List AssetId),
      (l ++ l').foldl (fixMaterialStep path gen) s =
        l'.foldl (fixMaterialStep path gen) (l.foldl (fixMaterialStep path gen) s) ∧
      (l ++ l').foldl (fixTextureStep path gen) s =
        l'.foldl (fixTextureStep path gen) (l.foldl (fixTextureStep path gen) s) ∧
      (l ++ l').foldl (fixEmptyStep path gen) s =
        l'.foldl (fixEmptyStep path gen) (l.foldl (fixEmptyStep path gen) s) := by
    intro s l l'
    exact ⟨List.foldl_append .., List.foldl_append .., List.foldl_append ..⟩
  have hguidEqE : (xs.foldl (fixEmptyStep path gen) (initState g0)).guid c
      = (xs.foldl (fixMaterialStep path gen) (initState g0)).guid c := by
    rw [foldl_guid_eq (fun s a => fixEmptyStep_guid_not_mod hmodc) xs (initState g0),
      foldl_guid_eq (fun s a => fixMaterialStep_guid_not_mod hmodc) xs (initState g0)]
  have hguidEqT : (xs.foldl (fixTextureStep path gen) (initState g0)).guid c
      = (xs.foldl (fixMaterialStep path gen) (initState g0)).guid c := by
    rw [foldl_guid_eq (fun s a => fixTextureStep_guid_not_mod hmodc) xs (initState g0),
      foldl_guid_eq (fun s a => fixMaterialStep_guid_not_mod hmodc) xs (initState g0)]
  have hwarnM : ∀ (s : ScanState), isValid (s.guid c) = false →
      fixMaterialStep path gen s c = { s with hasWarnings := true } := by
    intro s h1
    unfold fixMaterialStep
    rw [if_pos h1, if_neg (by rw [hmodc]; exact Bool.noConfusion)]
  have hwarnT : ∀ (s : ScanState), isValid (s.guid c) = false →
      fixTextureStep path gen s c = { s with hasWarnings := true } := by
    intro s h1
    unfold fixTextureStep
    rw [if_pos h1]
  have hwarnE : ∀ (s : ScanState), isValid (s.guid c) = false →
      fixEmptyStep path gen s c = { s with hasWarnings := true } := by
    intro s h1
    unfold fixEmptyStep
    rw [if_neg (by rw [h1]; exact Bool.noConfusion),
      if_neg (by rw [hmodc]; exact Bool.noConfusion)]
  refine ⟨happ, ?_, ?_, ?_⟩
  · rw [runFixMaterialGuids, List.foldl_append, List.foldl_cons,
      hwarnM (xs.foldl (fixMaterialStep path gen) (initState g0)) hinvM]
  · rw [runFixTextureGuids, List.foldl_append, List.foldl_cons,
      hwarnT (xs.foldl (fixTextureStep path gen) (initState g0))
        (by rw [hguidEqT]; exact hinvM)]
  · rw [runFixEmptyTextureGuids, List.foldl_append, List.foldl_cons,
      hwarnE (xs.foldl (fixEmptyStep path gen) (initState g0))
        (by rw [hguidEqE]; exact hinvM)]

/-- Witness for C10: engine-content asset 1 with invalid GUID 0 between two
project assets; the run continues past the warning. -/
theorem scans_run_to_completion_witness :
    (isValid (([0].foldl (fixMaterialStep (fun i => if i = 1 then "/Engine/B" else "/Game/A")
        genA) (initState (fun _ => 0))).guid 1) = false ∧
     shouldModify ((fun i : AssetId => if i = 1 then "/Engine/B" else "/Game/A") 1) = false) ∧
    runFixMaterialGuids (fun i => if i = 1 then "/Engine/B" else "/Game/A") genA
        (fun _ => 0) ([0] ++ 1 :: [2]) =
      [2].foldl (fixMaterialStep (fun i => if i = 1 then "/Engine/B" else "/Game/A") genA)
        { [0].foldl (fixMaterialStep (fun i => if i = 1 then "/Engine/B" else "/Game/A") genA)
            (initState (fun _ => 0)) with hasWarnings := true } := by
  refine ⟨⟨by decide, by decide⟩, ?_⟩
  exact (scans_run_to_completion (fun i => if i = 1 then "/Engine/B" else "/Game/A") genA
    (fun _ => 0) 1 [0] [2] (by decide) (by decide)).2.1

/-- Freshness contract of `FGuid::NewGuid` for one run: every generated GUID is
valid, distinct from every other generated GUID, and distinct from every GUID
initially held by an enumerated asset. -/
def FreshGen (gen : Nat → Guid) (g0 : AssetId → Guid) (order : List AssetId) : Prop :=
  (∀ i, isValid (gen i) = true) ∧
  (∀ i j, i ≠ j → gen i ≠ gen j) ∧
  (∀ i, ∀ a ∈ order, gen i ≠ g0 a)

@[simp] theorem rekeyIncumbent_guid (gen : Nat → Guid) (s : ScanState) (k : Guid)
    (r : AssetId) : (rekeyIncumbent gen s k r).guid = setGuid s.guid r (gen s.fresh) := rfl

@[simp] theorem rekeyIncumbent_reg (gen : Nat → Guid) (s : ScanState) (k : Guid)
    (r : AssetId) : (rekeyIncumbent gen s k r).reg
      = mapAdd (mapRemove s.reg k) (gen s.fresh) r := rfl

@[simp] theorem rekeyIncumbent_fresh (gen : Nat → Guid) (s : ScanState) (k : Guid)
    (r : AssetId) : (rekeyIncumbent gen s k r).fresh = s.fresh + 1 := rfl

@[simp] theorem assignCurrent_guid (gen : Nat → Guid) (s : ScanState) (a : AssetId) :
    (assignCurrent gen s a).guid = setGuid s.guid a (gen s.fresh) := rfl

@[simp] theorem assignCurrent_reg (gen : Nat → Guid) (s : ScanState) (a : AssetId) :
    (assignCurrent gen s a).reg = mapAdd s.reg (gen s.fresh) a := rfl

@[simp] theorem assignCurrent_fresh (gen : Nat → Guid) (s : ScanState) (a : AssetId) :
    (assignCurrent gen s a).fresh = s.fresh + 1 := rfl

/-- Inductive invariant of a collision-fixing scan, after the assets in
`processed` have been handled: every registry entry maps a valid key to an
asset currently holding exactly that GUID, every already-processed modifiable
asset with a valid GUID is findable in the registry under its current GUID,
every current GUID of an enumerated asset is either its initial GUID or an
already-drawn fresh GUID, and unprocessed assets are untouched. -/
structure ScanInv (path : AssetId → String) (g0 : AssetId → Guid) (gen : Nat → Guid)
    (order processed : List AssetId) (s : ScanState) : Prop where
  regAccurate : ∀ k v, (k, v) ∈ s.reg → s.guid v = k ∧ isValid k = true ∧ v ∈ processed
  regComplete : ∀ a ∈ processed, shouldModify (path a) = true →
    isValid (s.guid a) = true → mapFind s.reg (s.guid a) = some a
  provenance : ∀ a ∈ order, s.guid a = g0 a ∨ ∃ j, j < s.fresh ∧ s.guid a = gen j
  untouched : ∀ a, a ∉ processed → s.guid a = g0 a

theorem scanInv_init (path : AssetId → String) (g0 : AssetId → Guid) (gen : Nat → Guid)
    (order : List AssetId) : ScanInv path g0 gen order [] (initState g0) := by
  refine ⟨?_, ?_, ?_, ?_⟩
  · intro k v hm
    simp [initState] at hm
  · intro a ha
    simp at ha
  · intro a _
    exact Or.inl rfl
  · intro a _
    rfl

/-- A GUID currently held by an enumerated asset differs from every fresh GUID
not yet drawn. -/
theorem guid_ne_gen {g0 : AssetId → Guid} {gen : Nat → Guid} {order : List AssetId}
    {s : ScanState} (hfresh : FreshGen gen g0 order)
    (hprov : ∀ a ∈ order, s.guid a = g0 a ∨ ∃ j, j < s.fresh ∧ s.guid a = gen j)
    {a : AssetId} (ha : a ∈ order) {i : Nat} (hi : s.fresh ≤ i) : s.guid a ≠ gen i := by
  rcases hprov a ha with h | ⟨j, hj, h⟩
  · rw [h]
    exact fun hc => hfresh.2.2 i a ha hc.symm
  · rw [h]
    exact hfresh.2.1 j i (by omega)

/-- The collision core preserves the scan invariant (stated with the
`untouched` premise weakened at `c`, so that it also covers the material
pass's inline repair of an invalid GUID just before the collision check). -/
theorem scanInv_collideStep {path : AssetId → String} {g0 : AssetId → Guid}
    {gen : Nat → Guid} {order processed : List AssetId} {s : ScanState} {c : AssetId}
    (hfresh : FreshGen gen g0 order)
    (hra : ∀ k v, (k, v) ∈ s.reg → s.guid v = k ∧ isValid k = true ∧ v ∈ processed)
    (hrc : ∀ a ∈ processed, shouldModify (path a) = true →
      isValid (s.guid a) = true → mapFind s.reg (s.guid a) = some a)
    (hprov : ∀ a ∈ order, s.guid a = g0 a ∨ ∃ j, j < s.fresh ∧ s.guid a = gen j)
    (hunt : ∀ b, b ∉ processed → b ≠ c → s.guid b = g0 b)
    (hsub : ∀ a ∈ processed, a ∈ order) (hc : c ∈ order) (hcnp : c ∉ processed)
    (hvalid : isValid (s.guid c) = true) :
    ScanInv path g0 gen order (processed ++ [c]) (collideStep path gen s c) := by
  cases hfind : mapFind s.reg (s.guid c) with
  | none =>
    rw [collideStep_none hfind]
    refine ⟨?_, ?_, ?_, ?_⟩
    · intro k v hm
      rcases mem_mapAdd hm with h | ⟨h, hk⟩
      · simp only [Prod.mk.injEq] at h
        obtain ⟨rfl, rfl⟩ := h
        exact ⟨rfl, hvalid, List.mem_append.mpr (Or.inr (List.mem_singleton.mpr rfl))⟩
      · rcases hra k v h with ⟨hacc, hval, hproc⟩
        exact ⟨hacc, hval, List.mem_append.mpr (Or.inl hproc)⟩
    · intro a ha hmod hval
      rcases List.mem_append.mp ha with ha | ha
      · have hne : s.guid a ≠ s.guid c := by
          intro he
          have hfa := hrc a ha hmod hval
          rw [he, hfind] at hfa
          exact Option.noConfusion hfa
        rw [mapFind_mapAdd_ne hne]
        exact hrc a ha hmod hval
      · have ha' : a = c := List.mem_singleton.mp ha
        subst ha'
        exact mapFind_mapAdd_self s.reg (s.guid a) a
    · intro a ha
      exact hprov a ha
    · intro b hb
      exact hunt b (fun h => hb (List.mem_append.mpr (Or.inl h)))
        (fun h => hb (List.mem_append.mpr (Or.inr (List.mem_singleton.mpr h))))
  | some r =>
    rcases hra _ _ (mapFind_eq_some_mem hfind) with ⟨hrEq, hrVal, hrProc⟩
    have hrc2 : r ≠ c := fun h => hcnp (h ▸ hrProc)
    have hcmem : c ∈ processed ++ [c] := List.mem_append.mpr (Or.inr (List.mem_singleton.mpr rfl))
    have hmemL : ∀ a ∈ processed, a ∈ processed ++ [c] := fun a ha =>
      List.mem_append.mpr (Or.inl ha)
    have hanec : ∀ a ∈ processed, a ≠ c := fun a ha h => hcnp (h ▸ ha)
    have hguid_ne_c : ∀ a ∈ processed, shouldModify (path a) = true →
        isValid (s.guid a) = true → a ≠ r → s.guid a ≠ s.guid c := by
      intro a ha hmod hval har he
      have hfa := hrc a ha hmod hval
      rw [he, hfind] at hfa
      exact har (Option.some.inj hfa).symm
    have hnotmem : ∀ b, b ∉ processed ++ [c] → b ∉ processed ∧ b ≠ c ∧ b ≠ r := by
      intro b hb
      refine ⟨fun h => hb (hmemL b h), fun h => hb (h ▸ hcmem), fun h => hb (hmemL b (h ▸ hrProc))⟩
    by_cases hmr : shouldModify (path r) = true
    · by_cases hmc : shouldModify (path c) = true
      · rw [collideStep_hit_both hfind hrEq hmr hmc]
        refine ⟨?_, ?_, ?_, ?_⟩
        · intro k v hm
          simp only [assignCurrent_reg, assignCurrent_guid, rekeyIncumbent_reg,
            rekeyIncumbent_guid, rekeyIncumbent_fresh] at hm ⊢
          rcases mem_mapAdd hm with h | ⟨h, hk2⟩
          · simp only [Prod.mk.injEq] at h
            obtain ⟨rfl, rfl⟩ := h
            refine ⟨setGuid_same .., hfresh.1 _, hcmem⟩
          · rcases mem_mapAdd h with h | ⟨h, hk1⟩
            · simp only [Prod.mk.injEq] at h
              rw [h.1, h.2, setGuid_ne _ _ _ _ hrc2, setGuid_same]
              exact ⟨rfl, hfresh.1 _, hmemL r hrProc⟩
            · rcases mem_mapRemove h with ⟨h, hkc⟩
              rcases hra k v h with ⟨hacc, hval, hproc⟩
              have hvr : v ≠ r := fun hvr => hkc (by rw [← hacc, hvr, hrEq])
              rw [setGuid_ne _ _ _ _ (hanec v hproc), setGuid_ne _ _ _ _ hvr]
              exact ⟨hacc, hval, hmemL v hproc⟩
        · intro a ha hmod hval
          simp only [assignCurrent_reg, assignCurrent_guid, rekeyIncumbent_reg,
            rekeyIncumbent_guid, rekeyIncumbent_fresh] at hval ⊢
          rcases List.mem_append.mp ha with ha | ha
          · by_cases har : a = r
            · subst har
              rw [setGuid_ne _ _ _ _ hrc2, setGuid_same,
                mapFind_mapAdd_ne (hfresh.2.1 _ _ (by omega)), mapFind_mapAdd_self]
            · rw [setGuid_ne _ _ _ _ (hanec a ha), setGuid_ne _ _ _ _ har] at hval ⊢
              have h1 : s.guid a ≠ gen (s.fresh + 1) :=
                guid_ne_gen hfresh hprov (hsub a ha) (by omega)
              have h2 : s.guid a ≠ gen s.fresh :=
                guid_ne_gen hfresh hprov (hsub a ha) (by omega)
              rw [mapFind_mapAdd_ne h1, mapFind_mapAdd_ne h2,
                mapFind_mapRemove_ne (hguid_ne_c a ha hmod hval har)]
              exact hrc a ha hmod hval
          · have ha' : a = c := List.mem_singleton.mp ha
            subst ha'
            rw [setGuid_same, mapFind_mapAdd_self]
        · intro a ha
          simp only [assignCurrent_guid, assignCurrent_fresh, rekeyIncumbent_guid,
            rekeyIncumbent_fresh]
          by_cases hac : a = c
          · subst hac
            exact Or.inr ⟨s.fresh + 1, by omega, setGuid_same ..⟩
          · rw [setGuid_ne _ _ _ _ hac]
            by_cases har : a = r
            · subst har
              exact Or.inr ⟨s.fresh, by omega, setGuid_same ..⟩
            · rw [setGuid_ne _ _ _ _ har]
              rcases hprov a ha with h | ⟨j, hj, h⟩
              · exact Or.inl h
              · exact Or.inr ⟨j, by omega, h⟩
        · intro b hb
          rcases hnotmem b hb with ⟨h1, h2, h3⟩
          simp only [assignCurrent_guid, rekeyIncumbent_guid]
          rw [setGuid_ne _ _ _ _ h2, setGuid_ne _ _ _ _ h3]
          exact hunt b h1 h2
      · have hmc' : shouldModify (path c) = false := by simpa using hmc
        rw [collideStep_hit_incumbent hfind hrEq hmr hmc']
        refine ⟨?_, ?_, ?_, ?_⟩
        · intro k v hm
          simp only [rekeyIncumbent_reg, rekeyIncumbent_guid] at hm ⊢
          rcases mem_mapAdd hm with h | ⟨h, hk1⟩
          · simp only [Prod.mk.injEq] at h
            rw [h.1, h.2, setGuid_same]
            exact ⟨rfl, hfresh.1 _, hmemL r hrProc⟩
          · rcases mem_mapRemove h with ⟨h, hkc⟩
            rcases hra k v h with ⟨hacc, hval, hproc⟩
            have hvr : v ≠ r := fun hvr => hkc (by rw [← hacc, hvr, hrEq])
            rw [setGuid_ne _ _ _ _ hvr]
            exact ⟨hacc, hval, hmemL v hproc⟩
        · intro a ha hmod hval
          simp only [rekeyIncumbent_reg, rekeyIncumbent_guid, rekeyIncumbent_fresh] at hval ⊢
          rcases List.mem_append.mp ha with ha | ha
          · by_cases har : a = r
            · subst har
              rw [setGuid_same, mapFind_mapAdd_self]
            · rw [setGuid_ne _ _ _ _ har] at hval ⊢
              have h2 : s.guid a ≠ gen s.fresh :=
                guid_ne_gen hfresh hprov (hsub a ha) (by omega)
              rw [mapFind_mapAdd_ne h2,
                mapFind_mapRemove_ne (hguid_ne_c a ha hmod hval har)]
              exact hrc a ha hmod hval
          · have ha' : a = c := List.mem_singleton.mp ha
            subst ha'
            rw [hmc'] at hmod
            exact Bool.noConfusion hmod
        · intro a ha
          simp only [rekeyIncumbent_guid, rekeyIncumbent_fresh]
          by_cases har : a = r
          · subst har
            exact Or.inr ⟨s.fresh, by omega, setGuid_same ..⟩
          · rw [setGuid_ne _ _ _ _ har]
            rcases hprov a ha with h | ⟨j, hj, h⟩
            · exact Or.inl h
            · exact Or.inr ⟨j, by omega, h⟩
        · intro b hb
          rcases hnotmem b hb with ⟨h1, h2, h3⟩
          simp only [rekeyIncumbent_guid]
          rw [setGuid_ne _ _ _ _ h3]
          exact hunt b h1 h2
    · have hmr' : shouldModify (path r) = false := by simpa using hmr
      by_cases hmc : shouldModify (path c) = true
      · rw [collideStep_hit_current hfind hmr' hmc]
        refine ⟨?_, ?_, ?_, ?_⟩
        · intro k v hm
          simp only [assignCurrent_reg, assignCurrent_guid] at hm ⊢
          rcases mem_mapAdd hm with h | ⟨h, hk1⟩
          · simp only [Prod.mk.injEq] at h
            obtain ⟨rfl, rfl⟩ := h
            exact ⟨setGuid_same .., hfresh.1 _, hcmem⟩
          · rcases hra k v h with ⟨hacc, hval, hproc⟩
            rw [setGuid_ne _ _ _ _ (hanec v hproc)]
            exact ⟨hacc, hval, hmemL v hproc⟩
        · intro a ha hmod hval
          simp only [assignCurrent_reg, assignCurrent_guid, assignCurrent_fresh] at hval ⊢
          rcases List.mem_append.mp ha with ha | ha
          · rw [setGuid_ne _ _ _ _ (hanec a ha)] at hval ⊢
            have h2 : s.guid a ≠ gen s.fresh :=
              guid_ne_gen hfresh hprov (hsub a ha) (by omega)
            rw [mapFind_mapAdd_ne h2]
            exact hrc a ha hmod hval
          · have ha' : a = c := List.mem_singleton.mp ha
            subst ha'
            rw [setGuid_same, mapFind_mapAdd_self]
        · intro a ha
          simp only [assignCurrent_guid, assignCurrent_fresh]
          by_cases hac : a = c
          · subst hac
            exact Or.inr ⟨s.fresh, by omega, setGuid_same ..⟩
          · rw [setGuid_ne _ _ _ _ hac]
            rcases hprov a ha with h | ⟨j, hj, h⟩
            · exact Or.inl h
            · exact Or.inr ⟨j, by omega, h⟩
        · intro b hb
          rcases hnotmem b hb with ⟨h1, h2, _⟩
          simp only [assignCurrent_guid]
          rw [setGuid_ne _ _ _ _ h2]
          exact hunt b h1 h2
      · have hmc' : shouldModify (path c) = false := by simpa using hmc
        rw [collideStep_hit_warn hfind hmr' hmc']
        refine ⟨?_, ?_, ?_, ?_⟩
        · intro k v hm
          rcases hra k v hm with ⟨hacc, hval, hproc⟩
          exact ⟨hacc, hval, hmemL v hproc⟩
        · intro a ha hmod hval
          rcases List.mem_append.mp ha with ha | ha
          · exact hrc a ha hmod hval
          · have ha' : a = c := List.mem_singleton.mp ha
            subst ha'
            rw [hmc'] at hmod
            exact Bool.noConfusion hmod
        · intro a ha
          exact hprov a ha
        · intro b hb
          rcases hnotmem b hb with ⟨h1, h2, _⟩
          exact hunt b h1 h2

theorem collideStep_hit_dr_current {path : AssetId → String} {gen : Nat → Guid}
    {s : ScanState} {a r : AssetId} (h : mapFind s.reg (s.guid a) = some r)
    (hdr : (decide (s.guid r = s.guid a) && shouldModify (path r)) = false)
    (hma : shouldModify (path a) = true) :
    collideStep path gen s a = assignCurrent gen s a := by
  unfold collideStep
  rw [h]
  simp [hdr, hma]

theorem collideStep_hit_dr_warn {path : AssetId → String} {gen : Nat → Guid}
    {s : ScanState} {a r : AssetId} (h : mapFind s.reg (s.guid a) = some r)
    (hdr : (decide (s.guid r = s.guid a) && shouldModify (path r)) = false)
    (hma : shouldModify (path a) = false) :
    collideStep path gen s a = { s with hasWarnings := true } := by
  unfold collideStep
  rw [h]
  simp [hdr, hma]

theorem isValid_setGuid {f : AssetId → Guid} {i x : AssetId} {g : Guid}
    (hg : isValid g = true) (hf : isValid (f x) = true) :
    isValid (setGuid f i g x) = true := by
  unfold setGuid
  by_cases hxi : x = i
  · rw [if_pos hxi]
    exact hg
  · rw [if_neg hxi]
    exact hf

theorem collideStep_guid_valid {path : AssetId → String} {gen : Nat → Guid}
    {s : ScanState} {c : AssetId} (hgen : ∀ i, isValid (gen i) = true) (x : AssetId)
    (hx : isValid (s.guid x) = true) :
    isValid ((collideStep path gen s c).guid x) = true := by
  cases hfind : mapFind s.reg (s.guid c) with
  | none =>
    rw [collideStep_none hfind]
    exact hx
  | some r =>
    by_cases hdr : (decide (s.guid r = s.guid c) && shouldModify (path r)) = true
    · have hEq : s.guid r = s.guid c := of_decide_eq_true (Bool.and_eq_true .. ▸ hdr).1
      have hmr : shouldModify (path r) = true := (Bool.and_eq_true .. ▸ hdr).2
      by_cases hmc : shouldModify (path c) = true
      · rw [collideStep_hit_both hfind hEq hmr hmc]
        exact isValid_setGuid (hgen _) (isValid_setGuid (hgen _) hx)
      · rw [collideStep_hit_incumbent hfind hEq hmr (by simpa using hmc)]
        exact isValid_setGuid (hgen _) hx
    · have hdr' : (decide (s.guid r = s.guid c) && shouldModify (path r)) = false := by
        simpa using hdr
      by_cases hmc : shouldModify (path c) = true
      · rw [collideStep_hit_dr_current hfind hdr' hmc]
        exact isValid_setGuid (hgen _) hx
      · rw [collideStep_hit_dr_warn hfind hdr' (by simpa using hmc)]
        exact hx

theorem fixMaterialStep_guid_valid {path : AssetId → String} {gen : Nat → Guid}
    {s : ScanState} {c : AssetId} (hgen : ∀ i, isValid (gen i) = true) (x : AssetId)
    (hx : isValid (s.guid x) = true) :
    isValid ((fixMaterialStep path gen s c).guid x) = true := by
  unfold fixMaterialStep
  by_cases hv : isValid (s.guid c) = false
  · rw [if_pos hv]
    by_cases hmc : shouldModify (path c) = true
    · rw [if_pos hmc]
      exact collideStep_guid_valid hgen x (isValid_setGuid (hgen _) hx)
    · rw [if_neg hmc]
      exact hx
  · rw [if_neg hv]
    exact collideStep_guid_valid hgen x hx

theorem fixMaterialStep_self_valid {path : AssetId → String} {gen : Nat → Guid}
    {s : ScanState} {c : AssetId} (hgen : ∀ i, isValid (gen i) = true)
    (hmc : shouldModify (path c) = true) :
    isValid ((fixMaterialStep path gen s c).guid c) = true := by
  unfold fixMaterialStep
  by_cases hv : isValid (s.guid c) = false
  · rw [if_pos hv, if_pos hmc]
    refine collideStep_guid_valid hgen c ?_
    show isValid (setGuid s.guid c (gen s.fresh) c) = true
    rw [setGuid_same]
    exact hgen _
  · rw [if_neg hv]
    exact collideStep_guid_valid hgen c (by simpa using hv)

theorem foldl_material_valid {path : AssetId → String} {gen : Nat → Guid}
    (hgen : ∀ i, isValid (gen i) = true) :
    ∀ (l : List AssetId) (s : ScanState) (x : AssetId), isValid (s.guid x) = true →
      isValid ((l.foldl (fixMaterialStep path gen) s).guid x) = true := by
  intro l
  induction l with
  | nil => intro s x hx; exact hx
  | cons c rest ih =>
    intro s x hx
    rw [List.foldl_cons]
    exact ih (fixMaterialStep path gen s c) x (fixMaterialStep_guid_valid hgen x hx)

theorem material_run_mod_valid {path : AssetId → String} {gen : Nat → Guid}
    (hgen : ∀ i, isValid (gen i) = true) :
    ∀ (l : List AssetId) (s : ScanState) (x : AssetId), x ∈ l →
      shouldModify (path x) = true →
      isValid ((l.foldl (fixMaterialStep path gen) s).guid x) = true := by
  intro l
  induction l with
  | nil => intro s x hx; exact absurd hx (List.not_mem_nil x)
  | cons c rest ih =>
    intro s x hx hmod
    rw [List.foldl_cons]
    rcases List.mem_cons.mp hx with rfl | hx'
    · exact foldl_material_valid hgen rest _ x (fixMaterialStep_self_valid hgen hmod)
    · exact ih (fixMaterialStep path gen s c) x hx' hmod

theorem scanInv_fixMaterialStep {path : AssetId → String} {g0 : AssetId → Guid}
    {gen : Nat → Guid} {order processed : List AssetId} {s : ScanState} {c : AssetId}
    (hfresh : FreshGen gen g0 order) (hinv : ScanInv path g0 gen order processed s)
    (hsub : ∀ a ∈ processed, a ∈ order) (hc : c ∈ order) (hcnp : c ∉ processed) :
    ScanInv path g0 gen order (processed ++ [c]) (fixMaterialStep path gen s c) := by
  unfold fixMaterialStep
  by_cases hv : isValid (s.guid c) = false
  · rw [if_pos hv]
    by_cases hmc : shouldModify (path c) = true
    · rw [if_pos hmc]
      refine scanInv_collideStep hfresh ?_ ?_ ?_ ?_ hsub hc hcnp ?_
      · intro k v hm
        rcases hinv.regAccurate k v hm with ⟨hacc, hval, hproc⟩
        refine ⟨?_, hval, hproc⟩
        have hvc : v ≠ c := fun h => hcnp (by rw [← h]; exact hproc)
        show setGuid s.guid c (gen s.fresh) v = k
        rw [setGuid_ne _ _ _ _ hvc]
        exact hacc
      · intro a ha hmod hval
        have hanec : a ≠ c := fun h => hcnp (by rw [← h]; exact ha)
        have hg : setGuid s.guid c (gen s.fresh) a = s.guid a := setGuid_ne _ _ _ _ hanec
        have hval' : isValid (setGuid s.guid c (gen s.fresh) a) = true := hval
        rw [hg] at hval'
        show mapFind s.reg (setGuid s.guid c (gen s.fresh) a) = some a
        rw [hg]
        exact hinv.regComplete a ha hmod hval'
      · intro a ha
        by_cases hac : a = c
        · rw [hac]
          refine Or.inr ⟨s.fresh, ?_, ?_⟩
          · show s.fresh < s.fresh + 1
            omega
          · show setGuid s.guid c (gen s.fresh) c = gen s.fresh
            exact setGuid_same ..
        · have hg : setGuid s.guid c (gen s.fresh) a = s.guid a := setGuid_ne _ _ _ _ hac
          rcases hinv.provenance a ha with h | ⟨j, hj, h⟩
          · refine Or.inl ?_
            show setGuid s.guid c (gen s.fresh) a = g0 a
            rw [hg]
            exact h
          · refine Or.inr ⟨j, ?_, ?_⟩
            · show j < s.fresh + 1
              omega
            · show setGuid s.guid c (gen s.fresh) a = gen j
              rw [hg]
              exact h
      · intro b hb hbc
        show setGuid s.guid c (gen s.fresh) b = g0 b
        rw [setGuid_ne _ _ _ _ hbc]
        exact hinv.untouched b hb
      · show isValid (setGuid s.guid c (gen s.fresh) c) = true
        rw [setGuid_same]
        exact hfresh.1 _
    · rw [if_neg hmc]
      refine ⟨?_, ?_, hinv.provenance, ?_⟩
      · intro k v hm
        rcases hinv.regAccurate k v hm with ⟨hacc, hval, hproc⟩
        exact ⟨hacc, hval, List.mem_append.mpr (Or.inl hproc)⟩
      · intro a ha hmod hval
        rcases List.mem_append.mp ha with ha | ha
        · exact hinv.regComplete a ha hmod hval
        · have ha' : a = c := List.mem_singleton.mp ha
          refine absurd (show shouldModify (path c) = true by rw [← ha']; exact hmod) hmc
      · intro b hb
        exact hinv.untouched b (fun h => hb (List.mem_append.mpr (Or.inl h)))
  · rw [if_neg hv]
    exact scanInv_collideStep hfresh hinv.regAccurate hinv.regComplete hinv.provenance
      (fun b hb _ => hinv.untouched b hb) hsub hc hcnp (by simpa using hv)

theorem scanInv_fixTextureStep {path : AssetId → String} {g0 : AssetId → Guid}
    {gen : Nat → Guid} {order processed : List AssetId} {s : ScanState} {c : AssetId}
    (hfresh : FreshGen gen g0 order) (hinv : ScanInv path g0 gen order processed s)
    (hsub : ∀ a ∈ processed, a ∈ order) (hc : c ∈ order) (hcnp : c ∉ processed) :
    ScanInv path g0 gen order (processed ++ [c]) (fixTextureStep path gen s c) := by
  unfold fixTextureStep
  by_cases hv : isValid (s.guid c) = false
  · rw [if_pos hv]
    refine ⟨?_, ?_, hinv.provenance, ?_⟩
    · intro k v hm
      rcases hinv.regAccurate k v hm with ⟨hacc, hval, hproc⟩
      exact ⟨hacc, hval, List.mem_append.mpr (Or.inl hproc)⟩
    · intro a ha hmod hval
      rcases List.mem_append.mp ha with ha | ha
      · exact hinv.regComplete a ha hmod hval
      · have ha' : a = c := List.mem_singleton.mp ha
        have hval' : isValid (s.guid c) = true := by
          rw [← ha']
          exact hval
        rw [hval'] at hv
        exact Bool.noConfusion hv
    · intro b hb
      exact hinv.untouched b (fun h => hb (List.mem_append.mpr (Or.inl h)))
  · rw [if_neg hv]
    exact scanInv_collideStep hfresh hinv.regAccurate hinv.regComplete hinv.provenance
      (fun b hb _ => hinv.untouched b hb) hsub hc hcnp (by simpa using hv)

theorem scanInv_foldl {path : AssetId → String} {g0 : AssetId → Guid}
    {gen : Nat → Guid} {order : List AssetId} {f : ScanState → AssetId → ScanState}
    (hf : ∀ (processed : List AssetId) (s : ScanState) (c : AssetId),
      ScanInv path g0 gen order processed s → (∀ a ∈ processed, a ∈ order) →
      c ∈ order → c ∉ processed →
      ScanInv path g0 gen order (processed ++ [c]) (f s c)) :
    ∀ (rest processed : List AssetId) (s : ScanState),
      ScanInv path g0 gen order processed s → (∀ a ∈ processed, a ∈ order) →
      (∀ c ∈ rest, c ∈ order) → rest.Nodup → (∀ c ∈ rest, c ∉ processed) →
      ScanInv path g0 gen order (processed ++ rest) (rest.foldl f s) := by
  intro rest
  induction rest with
  | nil =>
    intro processed s hinv _ _ _ _
    simpa using hinv
  | cons c rest' ih =>
    intro processed s hinv hsub hmem hnd hdisj
    rw [List.foldl_cons]
    have h1 := hf processed s c hinv hsub (hmem c (List.mem_cons_self c rest'))
      (hdisj c (List.mem_cons_self c rest'))
    have h2 := ih (processed ++ [c]) (f s c) h1
      (fun a ha => by
        rcases List.mem_append.mp ha with ha | ha
        · exact hsub a ha
        · exact (List.mem_singleton.mp ha) ▸ hmem c (List.mem_cons_self c rest'))
      (fun x hx => hmem x (List.mem_cons_of_mem c hx))
      hnd.of_cons
      (fun x hx hmem' => by
        rcases List.mem_append.mp hmem' with h | h
        · exact hdisj x (List.mem_cons_of_mem c hx) h
        · exact (List.nodup_cons.mp hnd).1 ((List.mem_singleton.mp h) ▸ hx))
    rw [List.append_assoc] at h2
    exact h2

/-- The concrete generator `genA` is fresh for any enumeration of the fixture
`gInit` (whose GUIDs are all 5). -/
theorem freshGen_genA : ∀ l : List AssetId, FreshGen genA gInit l := by
  intro l
  refine ⟨?_, ?_, ?_⟩
  · intro i
    simp [genA, isValid]
  · intro i j hij h
    have h' : 100 + i = 100 + j := h
    omega
  · intro i a _ h
    have h' : 100 + i = 5 := h
    omega

/-- After one material scan, two distinct modifiable enumerated assets hold
distinct GUIDs (workhorse behind the public statements). -/
theorem material_run_mod_distinct (path : AssetId → String)
    (gen : Nat → Guid) (g0 : AssetId → Guid) (order : List AssetId)
    (hfresh : FreshGen gen g0 order) (hnd : order.Nodup) (a b : AssetId)
    (ha : a ∈ order) (hb : b ∈ order) (hab : a ≠ b)
    (hma : shouldModify (path a) = true) (hmb : shouldModify (path b) = true) :
    (runFixMaterialGuids path gen g0 order).guid a ≠
      (runFixMaterialGuids path gen g0 order).guid b := by
  have hinv := scanInv_foldl
    (fun processed s c hi hs hc hcnp => scanInv_fixMaterialStep hfresh hi hs hc hcnp)
    order [] (initState g0) (scanInv_init path g0 gen order)
    (fun a' ha' => absurd ha' (List.not_mem_nil a'))
    (fun c hc => hc) hnd (fun c _ => List.not_mem_nil c)
  rw [List.nil_append] at hinv
  intro hcontra
  unfold runFixMaterialGuids at hcontra
  have hva := material_run_mod_valid hfresh.1 order (initState g0) a ha hma
  have hvb := material_run_mod_valid hfresh.1 order (initState g0) b hb hmb
  have hfa := hinv.regComplete a ha hma hva
  have hfb := hinv.regComplete b hb hmb hvb
  rw [hcontra, hfb] at hfa
  exact hab (Option.some.inj hfa).symm

/-- Claim C2: after one collision-fixing scan over a duplicate-free enumeration,
assuming every freshly generated GUID is distinct from all initial GUIDs and
from every other fresh GUID, no two distinct modifiable assets end the scan
holding the same GUID. -/
theorem collision_fix_no_shared_modifiable_guid (path : AssetId → String)
    (gen : Nat → Guid) (g0 : AssetId → Guid) (order : List AssetId)
    (hfresh : FreshGen gen g0 order) (hnd : order.Nodup) (a b : AssetId)
    (ha : a ∈ order) (hb : b ∈ order) (hab : a ≠ b)
    (hma : shouldModify (path a) = true) (hmb : shouldModify (path b) = true) :
    (runFixMaterialGuids path gen g0 order).guid a ≠
      (runFixMaterialGuids path gen g0 order).guid b :=
  material_run_mod_distinct path gen g0 order hfresh hnd a b ha hb hab hma hmb

/-- Witness for C2: two project-content materials 0 and 2 both start with
GUID 5; after the scan their GUIDs differ. -/
theorem collision_fix_no_shared_modifiable_guid_witness :
    (FreshGen genA gInit [0, 2] ∧ ([0, 2] : List AssetId).Nodup ∧
     shouldModify (pathA 0) = true ∧ shouldModify (pathA 2) = true) ∧
    (runFixMaterialGuids pathA genA gInit [0, 2]).guid 0 ≠
      (runFixMaterialGuids pathA genA gInit [0, 2]).guid 2 :=
  ⟨⟨freshGen_genA _, by decide, by decide, by decide⟩,
   collision_fix_no_shared_modifiable_guid pathA genA gInit [0, 2] (freshGen_genA _)
     (by decide) 0 2 (by decide) (by decide) (by decide) (by decide) (by decide)⟩

/-- Claim C9: at the start of every loop iteration (i.e. in the state reached
after any prefix of the enumeration) every registry entry of the material and
texture collision scans maps its key to an asset whose current GUID is exactly
that key; consequently, whenever a registry lookup hits, the defensive
equality re-check `incumbent GUID == current GUID` holds, so the
incumbent-already-reassigned guard branch never declines the re-key. -/
theorem registry_entries_always_current (path : AssetId → String) (gen : Nat → Guid)
    (g0 : AssetId → Guid) (order : List AssetId)
    (hfresh : FreshGen gen g0 order) (hnd : order.Nodup) (n : Nat) :
    (∀ k v,
      mapFind ((order.take n).foldl (fixMaterialStep path gen) (initState g0)).reg k
        = some v →
      ((order.take n).foldl (fixMaterialStep path gen) (initState g0)).guid v = k) ∧
    (∀ a r,
      mapFind ((order.take n).foldl (fixMaterialStep path gen) (initState g0)).reg
        (((order.take n).foldl (fixMaterialStep path gen) (initState g0)).guid a)
        = some r →
      ((order.take n).foldl (fixMaterialStep path gen) (initState g0)).guid r =
        ((order.take n).foldl (fixMaterialStep path gen) (initState g0)).guid a) ∧
    (∀ k v,
      mapFind ((order.take n).foldl (fixTextureStep path gen) (initState g0)).reg k
        = some v →
      ((order.take n).foldl (fixTextureStep path gen) (initState g0)).guid v = k) ∧
    (∀ a r,
      mapFind ((order.take n).foldl (fixTextureStep path gen) (initState g0)).reg
        (((order.take n).foldl (fixTextureStep path gen) (initState g0)).guid a)
        = some r →
      ((order.take n).foldl (fixTextureStep path gen) (initState g0)).guid r =
        ((order.take n).foldl (fixTextureStep path gen) (initState g0)).guid a) := by
  have hndT : (order.take n).Nodup := hnd.sublist (List.take_sublist n order)
  have hmemT : ∀ c ∈ order.take n, c ∈ order := fun c hc => List.take_subset n order hc
  have hinvM := scanInv_foldl
    (fun processed s c hi hs hc hcnp => scanInv_fixMaterialStep hfresh hi hs hc hcnp)
    (order.take n) [] (initState g0) (scanInv_init path g0 gen order)
    (fun a' ha' => absurd ha' (List.not_mem_nil a'))
    hmemT hndT (fun c _ => List.not_mem_nil c)
  have hinvT := scanInv_foldl
    (fun processed s c hi hs hc hcnp => scanInv_fixTextureStep hfresh hi hs hc hcnp)
    (order.take n) [] (initState g0) (scanInv_init path g0 gen order)
    (fun a' ha' => absurd ha' (List.not_mem_nil a'))
    hmemT hndT (fun c _ => List.not_mem_nil c)
  refine ⟨?_, ?_, ?_, ?_⟩
  · intro k v h
    exact (hinvM.regAccurate k v (mapFind_eq_some_mem h)).1
  · intro a r h
    exact (hinvM.regAccurate _ r (mapFind_eq_some_mem h)).1
  · intro k v h
    exact (hinvT.regAccurate k v (mapFind_eq_some_mem h)).1
  · intro a r h
    exact (hinvT.regAccurate _ r (mapFind_eq_some_mem h)).1

/-- Witness for C9: the two-collision fixture after both iterations. -/
theorem registry_entries_always_current_witness :
    (FreshGen genA gInit [0, 2] ∧ ([0, 2] : List AssetId).Nodup) ∧
    (∀ k v,
      mapFind ((([0, 2] : List AssetId).take 2).foldl (fixMaterialStep pathA genA)
        (initState gInit)).reg k = some v →
      ((([0, 2] : List AssetId).take 2).foldl (fixMaterialStep pathA genA)
        (initState gInit)).guid v = k) :=
  ⟨⟨freshGen_genA _, by decide⟩,
   (registry_entries_always_current pathA genA gInit [0, 2] (freshGen_genA _)
     (by decide) 2).1⟩

theorem fixMaterialStep_valid_eq {path : AssetId → String} {gen : Nat → Guid}
    {s : ScanState} {c : AssetId} (h : isValid (s.guid c) = true) :
    fixMaterialStep path gen s c = collideStep path gen s c := by
  unfold fixMaterialStep
  rw [if_neg (by rw [h]; exact fun hc => Bool.noConfusion hc)]

/-- A material scan over collision-free, all-valid GUIDs changes nothing: every
asset keeps its GUID and both outcome flags stay clear. -/
theorem material_run_stable (path : AssetId → String) (gen2 : Nat → Guid)
    (g1 : AssetId → Guid) (order : List AssetId) (hnd : order.Nodup)
    (hvalid : ∀ a ∈ order, isValid (g1 a) = true)
    (hdist : ∀ a ∈ order, ∀ b ∈ order, a ≠ b → g1 a ≠ g1 b) :
    (∀ x, (runFixMaterialGuids path gen2 g1 order).guid x = g1 x) ∧
    (runFixMaterialGuids path gen2 g1 order).madeChanges = false ∧
    (runFixMaterialGuids path gen2 g1 order).hasWarnings = false := by
  have key : ∀ (rest processed : List AssetId) (s : ScanState),
      (∀ c ∈ rest, c ∈ order) → (∀ c ∈ rest, c ∉ processed) →
      (∀ a ∈ processed, a ∈ order) → rest.Nodup →
      (∀ x, s.guid x = g1 x) → s.madeChanges = false → s.hasWarnings = false →
      (∀ k v, (k, v) ∈ s.reg → v ∈ processed ∧ k = g1 v) →
      (∀ x, (rest.foldl (fixMaterialStep path gen2) s).guid x = g1 x) ∧
      (rest.foldl (fixMaterialStep path gen2) s).madeChanges = false ∧
      (rest.foldl (fixMaterialStep path gen2) s).hasWarnings = false := by
    intro rest
    induction rest with
    | nil =>
      intro processed s _ _ _ _ hg hmc hhw _
      exact ⟨hg, hmc, hhw⟩
    | cons c rest' ih =>
      intro processed s hmem hdisj hsub hnd' hg hmc hhw hreg
      rw [List.foldl_cons]
      have hvc : isValid (s.guid c) = true := by
        rw [hg c]
        exact hvalid c (hmem c (List.mem_cons_self c rest'))
      have hfind : mapFind s.reg (s.guid c) = none := by
        cases hfd : mapFind s.reg (s.guid c) with
        | none => rfl
        | some v =>
          rcases hreg _ _ (mapFind_eq_some_mem hfd) with ⟨hvp, hkv⟩
          have hvc' : v ≠ c := fun h =>
            hdisj c (List.mem_cons_self c rest') (h ▸ hvp)
          have : g1 c ≠ g1 v := by
            refine hdist c (hmem c (List.mem_cons_self c rest')) v (hsub v hvp) ?_
            exact fun h => hvc' h.symm
          rw [hg c] at hkv
          exact absurd hkv this
      have hstep : fixMaterialStep path gen2 s c
          = { s with reg := mapAdd s.reg (s.guid c) c } := by
        rw [fixMaterialStep_valid_eq hvc, collideStep_none hfind]
      rw [hstep]
      refine ih (processed ++ [c]) _ (fun z hz => hmem z (List.mem_cons_of_mem c hz))
        (fun z hz hmem' => ?_)
        (fun z hz => ?_) hnd'.of_cons hg hmc hhw (fun k v hm => ?_)
      · rcases List.mem_append.mp hmem' with h | h
        · exact hdisj z (List.mem_cons_of_mem c hz) h
        · exact (List.nodup_cons.mp hnd').1 ((List.mem_singleton.mp h) ▸ hz)
      · rcases List.mem_append.mp hz with h | h
        · exact hsub z h
        · exact (List.mem_singleton.mp h) ▸ hmem c (List.mem_cons_self c rest')
      · rcases mem_mapAdd hm with h | ⟨h, _⟩
        · simp only [Prod.mk.injEq] at h
          refine ⟨?_, ?_⟩
          · rw [h.2]
            exact List.mem_append.mpr (Or.inr (List.mem_singleton.mpr rfl))
          · rw [h.1, h.2, hg c]
        · rcases hreg k v h with ⟨hvp, hkv⟩
          exact ⟨List.mem_append.mpr (Or.inl hvp), hkv⟩
  have h := key order [] (initState g1) (fun c hc => hc) (fun c _ => List.not_mem_nil c)
    (fun a' ha' => absurd ha' (List.not_mem_nil a')) hnd (fun x => rfl) rfl rfl
    (fun k v hm => absurd hm (List.not_mem_nil (k, v)))
  exact h

/-- Claim C4 (amended): when every enumerated asset is project content, the
material collision fix is idempotent — a second run straight after the first,
with no external change, reports no change.  (As literally stated over all
inputs the claim is refuted by the counterexample below.) -/
theorem collision_fix_idempotent_when_all_modifiable (path : AssetId → String)
    (gen gen2 : Nat → Guid) (g0 : AssetId → Guid) (order : List AssetId)
    (hfresh : FreshGen gen g0 order) (hnd : order.Nodup)
    (hall : ∀ a ∈ order, shouldModify (path a) = true) :
    (runFixMaterialGuids path gen2
      (runFixMaterialGuids path gen g0 order).guid order).madeChanges = false := by
  have hval : ∀ a ∈ order, isValid ((runFixMaterialGuids path gen g0 order).guid a) = true :=
    fun a ha => material_run_mod_valid hfresh.1 order (initState g0) a ha (hall a ha)
  have hdist : ∀ a ∈ order, ∀ b ∈ order, a ≠ b →
      (runFixMaterialGuids path gen g0 order).guid a ≠
        (runFixMaterialGuids path gen g0 order).guid b :=
    fun a ha b hb hab =>
      material_run_mod_distinct path gen g0 order hfresh hnd a b ha hb hab
        (hall a ha) (hall b hb)
  exact (material_run_stable path gen2 (runFixMaterialGuids path gen g0 order).guid
    order hnd hval hdist).2.1

/-- Witness for the amended C4: three project-content materials sharing GUID 5;
the second run is silent. -/
theorem collision_fix_idempotent_when_all_modifiable_witness :
    (FreshGen genA (fun _ => 5) [0, 1, 2] ∧ ([0, 1, 2] : List AssetId).Nodup ∧
     (∀ a ∈ ([0, 1, 2] : List AssetId), shouldModify ((fun _ => "/Game/M") a) = true)) ∧
    (runFixMaterialGuids (fun _ => "/Game/M") genB
      (runFixMaterialGuids (fun _ => "/Game/M") genA (fun _ => 5) [0, 1, 2]).guid
      [0, 1, 2]).madeChanges = false :=
  ⟨⟨freshGen_genA _, by decide, by decide⟩,
   collision_fix_idempotent_when_all_modifiable (fun _ => "/Game/M") genA genB
     (fun _ => 5) [0, 1, 2] (freshGen_genA _) (by decide) (by decide)⟩

/-- Counterexample to C4 as literally stated: materials 0 ("/Game/I"),
1 ("/Engine/B"), 2 ("/Game/C") all start with GUID 5.  The first run re-keys
asset 0 through the defensive incumbent branch (which removes key 5 from the
registry without registering the unmodifiable asset 1), so assets 1 and 2
still collide afterwards while the first run reports no change and no
warning; the second run then reassigns asset 2, i.e. `AnyChangeMade = true`,
even though both generators satisfy the freshness assumption. -/
theorem collision_fix_not_idempotent_counterexample :
    FreshGen genA gInit [0, 1, 2] ∧
    FreshGen genB (runFixMaterialGuids pathA genA gInit [0, 1, 2]).guid [0, 1, 2] ∧
    (runFixMaterialGuids pathA genA gInit [0, 1, 2]).madeChanges = false ∧
    (runFixMaterialGuids pathA genA gInit [0, 1, 2]).hasWarnings = false ∧
    (runFixMaterialGuids pathA genB
      (runFixMaterialGuids pathA genA gInit [0, 1, 2]).guid [0, 1, 2]).madeChanges
      = true := by
  refine ⟨freshGen_genA _, ⟨?_, ?_, ?_⟩, by decide, by decide, by decide⟩
  · intro i
    simp [genB, isValid]
  · intro i j hij h
    have h' : 200 + i = 200 + j := h
    omega
  · intro i a ha h
    have h0 : (runFixMaterialGuids pathA genA gInit [0, 1, 2]).guid 0 = 100 := by decide
    have h1 : (runFixMaterialGuids pathA genA gInit [0, 1, 2]).guid 1 = 5 := by decide
    have h2 : (runFixMaterialGuids pathA genA gInit [0, 1, 2]).guid 2 = 5 := by decide
    rcases List.mem_cons.mp ha with rfl | ha'
    · rw [h0] at h
      have h' : 200 + i = 100 := h
      omega
    rcases List.mem_cons.mp ha' with rfl | ha''
    · rw [h1] at h
      have h' : 200 + i = 5 := h
      omega
    rcases List.mem_cons.mp ha'' with rfl | ha'''
    · rw [h2] at h
      have h' : 200 + i = 5 := h
      omega
    · exact absurd ha''' (List.not_mem_nil a)

/-- Exact characterization of a material scan over a two-asset enumeration
whose assets share one valid GUID: the second asset's lookup hits the first,
and the four policy combinations produce the four collision outcomes of the
source (defensive incumbent re-key, policy-gated reassignment, warning). -/
theorem run_pair (path : AssetId → String) (gen : Nat → Guid) (g0 : AssetId → Guid)
    {x y : AssetId} (hG : g0 x = g0 y) (hvx : isValid (g0 x) = true) :
    runFixMaterialGuids path gen g0 [x, y]
      = if shouldModify (path x) = true then
          (if shouldModify (path y) = true then
            assignCurrent gen
              (rekeyIncumbent gen { initState g0 with reg := [(g0 x, x)] } (g0 y) x) y
          else rekeyIncumbent gen { initState g0 with reg := [(g0 x, x)] } (g0 y) x)
        else
          (if shouldModify (path y) = true then
            assignCurrent gen { initState g0 with reg := [(g0 x, x)] } y
          else { initState g0 with reg := [(g0 x, x)], hasWarnings := true }) := by
  have hstep1 : fixMaterialStep path gen (initState g0) x
      = { initState g0 with reg := [(g0 x, x)] } := by
    rw [fixMaterialStep_valid_eq hvx,
      collideStep_none (show mapFind (initState g0).reg ((initState g0).guid x) = none
        from rfl)]
    rfl
  unfold runFixMaterialGuids
  rw [List.foldl_cons, List.foldl_cons, List.foldl_nil, hstep1]
  have hvy : isValid (({ initState g0 with reg := [(g0 x, x)] } : ScanState).guid y)
      = true := by
    show isValid (g0 y) = true
    rw [← hG]
    exact hvx
  rw [fixMaterialStep_valid_eq hvy]
  have hfind : mapFind ({ initState g0 with reg := [(g0 x, x)] } : ScanState).reg
      (({ initState g0 with reg := [(g0 x, x)] } : ScanState).guid y) = some x := by
    show mapFind [(g0 x, x)] (g0 y) = some x
    rw [mapFind, if_pos hG]
  have hEq : ({ initState g0 with reg := [(g0 x, x)] } : ScanState).guid x
      = ({ initState g0 with reg := [(g0 x, x)] } : ScanState).guid y := hG
  by_cases hmx : shouldModify (path x) = true
  · by_cases hmy : shouldModify (path y) = true
    · rw [if_pos hmx, if_pos hmy, collideStep_hit_both hfind hEq hmx hmy]
      rfl
    · rw [if_pos hmx, if_neg hmy, collideStep_hit_incumbent hfind hEq hmx (by simpa using hmy)]
      rfl
  · have hmx' : shouldModify (path x) = false := by simpa using hmx
    by_cases hmy : shouldModify (path y) = true
    · rw [if_neg hmx, if_pos hmy, collideStep_hit_dr_current hfind (by simp [hmx']) hmy]
    · rw [if_neg hmx, if_neg hmy,
        collideStep_hit_dr_warn hfind (by simp [hmx']) (by simpa using hmy)]

/-- Claim C3 (amended): when exactly two project-content assets share one
valid GUID (two-asset enumeration, either order, no other collision), one run
reassigns BOTH of them: the incumbent is re-keyed by the defensive branch and
the scanned asset by the policy-gated branch, ending with two fresh, valid,
distinct GUIDs — neither asset keeps the original identifier.  (The literal
claim that exactly one asset changes while the other keeps its identifier is
refuted by the counterexample.) -/
theorem two_modifiable_collision_both_rekeyed (path : AssetId → String)
    (gen : Nat → Guid) (g0 : AssetId → Guid) (a b : AssetId) (order : List AssetId)
    (hab : a ≠ b) (hma : shouldModify (path a) = true)
    (hmb : shouldModify (path b) = true) (hG : g0 a = g0 b)
    (hval : isValid (g0 a) = true) (hfresh : FreshGen gen g0 [a, b])
    (horder : order = [a, b] ∨ order = [b, a]) :
    (runFixMaterialGuids path gen g0 order).guid a ≠ g0 a ∧
    (runFixMaterialGuids path gen g0 order).guid b ≠ g0 b ∧
    (runFixMaterialGuids path gen g0 order).guid a ≠
      (runFixMaterialGuids path gen g0 order).guid b ∧
    isValid ((runFixMaterialGuids path gen g0 order).guid a) = true ∧
    isValid ((runFixMaterialGuids path gen g0 order).guid b) = true := by
  have hmemA : a ∈ [a, b] := List.mem_cons_self a [b]
  have hmemB : b ∈ [a, b] := List.mem_cons_of_mem a (List.mem_cons_self b [])
  rcases horder with rfl | rfl
  · rw [run_pair path gen g0 hG hval, if_pos hma, if_pos hmb]
    have hga : (assignCurrent gen (rekeyIncumbent gen
        { initState g0 with reg := [(g0 a, a)] } (g0 b) a) b).guid a = gen 0 := by
      show setGuid (setGuid g0 a (gen 0)) b (gen 1) a = gen 0
      rw [setGuid_ne _ _ _ _ hab, setGuid_same]
    have hgb : (assignCurrent gen (rekeyIncumbent gen
        { initState g0 with reg := [(g0 a, a)] } (g0 b) a) b).guid b = gen 1 := by
      show setGuid (setGuid g0 a (gen 0)) b (gen 1) b = gen 1
      rw [setGuid_same]
    rw [hga, hgb]
    exact ⟨hfresh.2.2 0 a hmemA, hfresh.2.2 1 b hmemB, hfresh.2.1 0 1 (by omega),
      hfresh.1 0, hfresh.1 1⟩
  · rw [run_pair path gen g0 hG.symm (by rw [← hG]; exact hval), if_pos hmb, if_pos hma]
    have hga : (assignCurrent gen (rekeyIncumbent gen
        { initState g0 with reg := [(g0 b, b)] } (g0 a) b) a).guid a = gen 1 := by
      show setGuid (setGuid g0 b (gen 0)) a (gen 1) a = gen 1
      rw [setGuid_same]
    have hgb : (assignCurrent gen (rekeyIncumbent gen
        { initState g0 with reg := [(g0 b, b)] } (g0 a) b) a).guid b = gen 0 := by
      show setGuid (setGuid g0 b (gen 0)) a (gen 1) b = gen 0
      rw [setGuid_ne _ _ _ _ (Ne.symm hab), setGuid_same]
    rw [hga, hgb]
    exact ⟨hfresh.2.2 1 a hmemA, hfresh.2.2 0 b hmemB, hfresh.2.1 1 0 (by omega),
      hfresh.1 1, hfresh.1 0⟩

/-- Counterexample to C3 as stated: materials 0 ("/Game/A") and 2 ("/Game/C")
are the only two assets, both with valid GUID 5, in no other collision.  After
one run asset 0 holds 100 and asset 2 holds 101 — both assets were reassigned
and neither kept its original identifier, contradicting "exactly one of the
two assets ends the run with a new identifier and the other keeps its
original". -/
theorem two_modifiable_collision_counterexample :
    (runFixMaterialGuids pathA genA gInit [0, 2]).guid 0 = 100 ∧
    (runFixMaterialGuids pathA genA gInit [0, 2]).guid 2 = 101 ∧
    (runFixMaterialGuids pathA genA gInit [0, 2]).guid 0 ≠ gInit 0 ∧
    (runFixMaterialGuids pathA genA gInit [0, 2]).guid 2 ≠ gInit 2 := by
  refine ⟨by decide, by decide, by decide, by decide⟩

/-- Witness for the amended C3. -/
theorem two_modifiable_collision_both_rekeyed_witness :
    ((0 : AssetId) ≠ 2 ∧ shouldModify (pathA 0) = true ∧ shouldModify (pathA 2) = true ∧
     gInit 0 = gInit 2 ∧ isValid (gInit 0) = true ∧ FreshGen genA gInit [0, 2]) ∧
    ((runFixMaterialGuids pathA genA gInit [0, 2]).guid 0 ≠ gInit 0 ∧
     (runFixMaterialGuids pathA genA gInit [0, 2]).guid 2 ≠ gInit 2 ∧
     (runFixMaterialGuids pathA genA gInit [0, 2]).guid 0 ≠
       (runFixMaterialGuids pathA genA gInit [0, 2]).guid 2 ∧
     isValid ((runFixMaterialGuids pathA genA gInit [0, 2]).guid 0) = true ∧
     isValid ((runFixMaterialGuids pathA genA gInit [0, 2]).guid 2) = true) :=
  ⟨⟨by decide, by decide, by decide, by decide, by decide, freshGen_genA _⟩,
   two_modifiable_collision_both_rekeyed pathA genA gInit 0 2 [0, 2] (by decide)
     (by decide) (by decide) (by decide) (by decide) (freshGen_genA _) (Or.inl rfl)⟩

/-- Claim C5 (amended): with A modifiable, B not, both holding the same valid
GUID G, in both enumeration orders A ends re-keyed to the freshly drawn GUID
and B keeps G.  The displayed report, however, depends on the order: when B is
enumerated before A, the policy-gated branch fires for A, `AnyChangeMade` is
set and the report is the "changed, no warnings" variant; when A is enumerated
before B, A is re-keyed by the defensive incumbent branch, which does NOT set
`AnyChangeMade`, and the report is the "no duplicates found" variant even
though a GUID was changed.  When neither asset is modifiable the report is the
"no change, unresolved warning" variant in both orders. -/
theorem mixed_collision_report (path : AssetId → String) (gen : Nat → Guid)
    (g0 : AssetId → Guid) (a b : AssetId) (hab : a ≠ b)
    (hG : g0 a = g0 b) (hval : isValid (g0 a) = true) :
    (shouldModify (path a) = true → shouldModify (path b) = false →
      (runFixMaterialGuids path gen g0 [a, b]).guid a = gen 0 ∧
      (runFixMaterialGuids path gen g0 [a, b]).guid b = g0 b ∧
      (runFixMaterialGuids path gen g0 [b, a]).guid a = gen 0 ∧
      (runFixMaterialGuids path gen g0 [b, a]).guid b = g0 b ∧
      (fixMaterialGuids path gen g0 [b, a]).2
        = "At least one material GUID has been changed. Use save all to save these changes." ∧
      (fixMaterialGuids path gen g0 [a, b]).2 = "No duplicate material GUIDs found.") ∧
    (shouldModify (path a) = false → shouldModify (path b) = false →
      (fixMaterialGuids path gen g0 [a, b]).2
        = "No material GUID has been changed, but there are some unresolvable issues (Please refer to log)." ∧
      (fixMaterialGuids path gen g0 [b, a]).2
        = "No material GUID has been changed, but there are some unresolvable issues (Please refer to log).") := by
  have hvalb : isValid (g0 b) = true := by
    rw [← hG]
    exact hval
  constructor
  · intro hma hmb
    have hnb : ¬ shouldModify (path b) = true := by
      rw [hmb]
      exact fun h => Bool.noConfusion h
    have hrunAB : runFixMaterialGuids path gen g0 [a, b]
        = rekeyIncumbent gen { initState g0 with reg := [(g0 a, a)] } (g0 b) a := by
      rw [run_pair path gen g0 hG hval, if_pos hma, if_neg hnb]
    have hrunBA : runFixMaterialGuids path gen g0 [b, a]
        = assignCurrent gen { initState g0 with reg := [(g0 b, b)] } a := by
      rw [run_pair path gen g0 hG.symm hvalb, if_neg hnb, if_pos hma]
    refine ⟨?_, ?_, ?_, ?_, ?_, ?_⟩
    · rw [hrunAB]
      show setGuid g0 a (gen 0) a = gen 0
      rw [setGuid_same]
    · rw [hrunAB]
      show setGuid g0 a (gen 0) b = g0 b
      rw [setGuid_ne _ _ _ _ (Ne.symm hab)]
    · rw [hrunBA]
      show setGuid g0 a (gen 0) a = gen 0
      rw [setGuid_same]
    · rw [hrunBA]
      show setGuid g0 a (gen 0) b = g0 b
      rw [setGuid_ne _ _ _ _ (Ne.symm hab)]
    · show materialDialogText (runFixMaterialGuids path gen g0 [b, a]).madeChanges
        (runFixMaterialGuids path gen g0 [b, a]).hasWarnings = _
      rw [hrunBA]
      rfl
    · show materialDialogText (runFixMaterialGuids path gen g0 [a, b]).madeChanges
        (runFixMaterialGuids path gen g0 [a, b]).hasWarnings = _
      rw [hrunAB]
      rfl
  · intro hma hmb
    have hna : ¬ shouldModify (path a) = true := by
      rw [hma]
      exact fun h => Bool.noConfusion h
    have hnb : ¬ shouldModify (path b) = true := by
      rw [hmb]
      exact fun h => Bool.noConfusion h
    have hrunAB : runFixMaterialGuids path gen g0 [a, b]
        = { initState g0 with reg := [(g0 a, a)], hasWarnings := true } := by
      rw [run_pair path gen g0 hG hval, if_neg hna, if_neg hnb]
    have hrunBA : runFixMaterialGuids path gen g0 [b, a]
        = { initState g0 with reg := [(g0 b, b)], hasWarnings := true } := by
      rw [run_pair path gen g0 hG.symm hvalb, if_neg hnb, if_neg hna]
    constructor
    · show materialDialogText (runFixMaterialGuids path gen g0 [a, b]).madeChanges
        (runFixMaterialGuids path gen g0 [a, b]).hasWarnings = _
      rw [hrunAB]
      rfl
    · show materialDialogText (runFixMaterialGuids path gen g0 [b, a]).madeChanges
        (runFixMaterialGuids path gen g0 [b, a]).hasWarnings = _
      rw [hrunBA]
      rfl

/-- Counterexample to C5 as stated: A = material 0 ("/Game/A", GUID 5,
modifiable) and B = material 1 ("/Engine/B", GUID 5, not modifiable).  For the
enumeration order [A, B], A is indeed re-keyed (to 100) and B keeps 5, but the
final report is the "no duplicate material GUIDs found" variant rather than
the claimed "at least one identifier changed" variant, because the defensive
incumbent branch does not set `AnyChangeMade`. -/
theorem mixed_collision_report_counterexample :
    (runFixMaterialGuids pathA genA gInit [0, 1]).guid 0 = 100 ∧
    (runFixMaterialGuids pathA genA gInit [0, 1]).guid 1 = 5 ∧
    (fixMaterialGuids pathA genA gInit [0, 1]).2 = "No duplicate material GUIDs found." := by
  refine ⟨by decide, by decide, by decide⟩

/-- Witness for the amended C5. -/
theorem mixed_collision_report_witness :
    ((0 : AssetId) ≠ 1 ∧ gInit 0 = gInit 1 ∧ isValid (gInit 0) = true ∧
     shouldModify (pathA 0) = true ∧ shouldModify (pathA 1) = false) ∧
    ((runFixMaterialGuids pathA genA gInit [0, 1]).guid 0 = genA 0 ∧
     (runFixMaterialGuids pathA genA gInit [0, 1]).guid 1 = gInit 1 ∧
     (runFixMaterialGuids pathA genA gInit [1, 0]).guid 0 = genA 0 ∧
     (runFixMaterialGuids pathA genA gInit [1, 0]).guid 1 = gInit 1 ∧
     (fixMaterialGuids pathA genA gInit [1, 0]).2
       = "At least one material GUID has been changed. Use save all to save these changes." ∧
     (fixMaterialGuids pathA genA gInit [0, 1]).2 = "No duplicate material GUIDs found.") :=
  ⟨⟨by decide, by decide, by decide, by decide, by decide⟩,
   (mixed_collision_report pathA genA gInit 0 1 (by decide) (by decide) (by decide)).1
     (by decide) (by decide)⟩

end GuidFixer
